import Mathlib

/-!
Verification development for the Google Tasks MCP server.

The definitions below are a shallow embedding of the server's core:

* the task data model and the structured-payload serializer
  (`serializeTask` in `src/src/Tasks.ts`),
* the error translator (`handleApiError` in `src/src/Tasks.ts`),
* the task tool actions `TaskActions.list` / `.get` / `.create` / `.search`
  and their aggregation helper `TaskActions._list` from `src/src/Tasks.ts`
  (modelled as pure functions over a `Gateway` record that fixes the
  responses of the upstream Google Tasks API; each action also returns the
  trace of gateway calls it issued), and
* the credential bootstrap and the OAuth token-refresh handler
  (`setupAuth` / `setupTokenRefreshHandler` in the server entry module).

JavaScript-isms are made explicit: optional wire fields are `Option`s, and
the `x || d` idiom is captured by `jsTruthy` / `jsOrStr` / `jsOrNullStr` /
`jsOrBool` (absent values, empty strings and `false` are falsy).
-/

namespace GTasks

/-- JavaScript truthiness of an optional string: absent and empty are falsy. -/
def jsTruthy (v : Option String) : Bool :=
  match v with
  | some s => if s = "" then false else true
  | none => false

/-- JavaScript `v || d` for an optional string with a string default. -/
def jsOrStr (v : Option String) (d : String) : String :=
  match v with
  | some s => if s = "" then d else s
  | none => d

/-- JavaScript `v || null` for an optional string: the empty string collapses
to the null sentinel. -/
def jsOrNullStr (v : Option String) : Option String :=
  match v with
  | some s => if s = "" then none else some s
  | none => none

/-- JavaScript `v || d` for an optional boolean. -/
def jsOrBool (v : Option Bool) (d : Bool) : Bool :=
  match v with
  | some b => if b then true else d
  | none => d

/-- JavaScript template-string rendering of a possibly absent string
(an absent value prints as the text undefined). -/
def jsDisplay (v : Option String) : String := v.getD "undefined"

/-- JavaScript `String.prototype.toLowerCase`, character by character. -/
def strLower (s : String) : String := ⟨s.data.map Char.toLower⟩

/-- JavaScript `s.includes(sub)`: substring containment, as used by
`task.search` after lowercasing both sides. -/
def strIncludes (s sub : String) : Bool := decide (sub.data <:+: s.data)

/-- Wire shape of `tasks_v1.Schema$Task`: every field is optional. -/
structure Task where
  id : Option String := none
  title : Option String := none
  status : Option String := none
  notes : Option String := none
  due : Option String := none
  completed : Option String := none
  parent : Option String := none
  position : Option String := none
  updated : Option String := none
  hidden : Option Bool := none
  deleted : Option Bool := none
  etag : Option String := none
  selfLink : Option String := none
  links : Option (List String) := none
deriving Repr, DecidableEq

/-- Wire shape of `tasks_v1.Schema$TaskList`, restricted to the fields the
task actions consult. -/
structure TaskList where
  id : Option String := none
  title : Option String := none
deriving Repr, DecidableEq

/-- One task inside the structured JSON payload built by
`TaskActions.serializeTask`: `title` and `status` are always-present strings,
`hidden` and `deleted` always-present booleans, and the nullable fields are
explicit `Option`s whose `none` renders as a JSON `null` (never as an absent
key). -/
structure STask where
  id : Option String
  title : String
  status : String
  notes : Option String
  due : Option String
  completed : Option String
  parent : Option String
  position : Option String
  updated : Option String
  hidden : Bool
  deleted : Bool
  etag : Option String
  selfLink : Option String
  links : List String
deriving Repr, DecidableEq

/-- `TaskActions.serializeTask` from `src/src/Tasks.ts`: each field is the
JavaScript `field || default` of the wire value. -/
def serializeTask (t : Task) : STask :=
  { id := jsOrNullStr t.id
    title := jsOrStr t.title "Untitled"
    status := jsOrStr t.status "needsAction"
    notes := jsOrNullStr t.notes
    due := jsOrNullStr t.due
    completed := jsOrNullStr t.completed
    parent := jsOrNullStr t.parent
    position := jsOrNullStr t.position
    updated := jsOrNullStr t.updated
    hidden := jsOrBool t.hidden false
    deleted := jsOrBool t.deleted false
    etag := jsOrNullStr t.etag
    selfLink := jsOrNullStr t.selfLink
    links := t.links.getD [] }

/-- Re-parsing one serialized task out of the structured JSON payload back
into the wire shape: every key of the payload is present, so every parsed
field is `some` of the payload value, except that a JSON `null` parses back
to an absent optional. -/
def parseTask (s : STask) : Task :=
  { id := s.id
    title := some s.title
    status := some s.status
    notes := s.notes
    due := s.due
    completed := s.completed
    parent := s.parent
    position := s.position
    updated := s.updated
    hidden := some s.hidden
    deleted := some s.deleted
    etag := s.etag
    selfLink := s.selfLink
    links := some s.links }

/-- MCP protocol error codes used by the server. -/
inductive ErrorCode where
  | invalidParams
  | invalidRequest
  | internalError
  | methodNotFound
deriving Repr, DecidableEq

/-- An `McpError` thrown back to the protocol caller. -/
structure McpError where
  code : ErrorCode
  message : String := ""
deriving Repr, DecidableEq

/-- An upstream failure: `status = some s` models a GaxiosError carrying an
HTTP response with status `s`; `status = none` models a non-HTTP exception. -/
structure ApiError where
  status : Option Nat := none
  message : String := ""
deriving Repr, DecidableEq

instance {e a : Type} [DecidableEq e] [DecidableEq a] : DecidableEq (Except e a) := fun x y =>
  match x, y with
  | Except.ok u, Except.ok v =>
    if h : u = v then isTrue (by simp [h]) else isFalse (by simp [h])
  | Except.error u, Except.error v =>
    if h : u = v then isTrue (by simp [h]) else isFalse (by simp [h])
  | Except.ok _, Except.error _ => isFalse (by simp)
  | Except.error _, Except.ok _ => isFalse (by simp)

/-- `handleApiError` from `src/src/Tasks.ts`: maps an upstream failure to the
`McpError` it throws. HTTP 400 becomes invalid-params, 401/403/404 become
invalid-request; any other status, and non-HTTP exceptions, fall through to
the caller-provided code (`ErrorCode.internalError` at every call site). -/
def handleApiError (e : ApiError) (operation : String) (errorCode : ErrorCode) : McpError :=
  match e.status with
  | some 400 => { code := ErrorCode.invalidParams
                  message := "Invalid request parameters: " ++ e.message }
  | some 401 => { code := ErrorCode.invalidRequest
                  message := "Authentication error: " ++ e.message }
  | some 403 => { code := ErrorCode.invalidRequest
                  message := "Authentication error: " ++ e.message }
  | some 404 => { code := ErrorCode.invalidRequest
                  message := "Resource not found: " ++ e.message }
  | _ => { code := errorCode
           message := "Failed during " ++ operation ++ ": " ++ e.message }

/-- One upstream API call, as recorded in an action's call trace. -/
inductive GCall where
  | tasklistsList
  | tasksList (tasklist : String)
  | tasksGet (tasklist task : String)
  | tasksInsert (tasklist : String) (body : Task)
deriving Repr, DecidableEq

/-- The upstream Google Tasks API, fixed for one request: the response each
endpoint would give. A list endpoint answers with an optional `items` field
(the server applies `items || []`), or fails with an `ApiError`. -/
structure Gateway where
  tasklistsList : Except ApiError (Option (List TaskList))
  tasksList : String → Except ApiError (Option (List Task))
  tasksGet : String → String → Except ApiError Task
  tasksInsert : String → Task → Except ApiError Task

/-- Items of a per-list `tasks.list` response as the aggregator sees them:
`items || []` on success, and the empty contribution on a caught failure. -/
def itemsOf (r : Except ApiError (Option (List Task))) : List Task :=
  match r with
  | Except.ok items => items.getD []
  | Except.error _ => []

/-- Whether an upstream call succeeded. -/
def exceptOk {a : Type} (r : Except ApiError a) : Bool :=
  match r with
  | Except.ok _ => true
  | Except.error _ => false

/-- Protocol error code of an action result, if it failed. -/
def errCodeOf {a : Type} (r : Except McpError a) : Option ErrorCode :=
  match r with
  | Except.error e => some e.code
  | Except.ok _ => none

/-- Structured payload of `task.list`: the JSON object with `count`,
`taskListId` and the serialized `tasks`, together with the summary text. -/
structure ListEnvelope where
  text : String
  count : Nat
  taskListId : Option String
  tasks : List STask
deriving Repr, DecidableEq

/-- Structured payload of `task.search`. -/
structure SearchEnvelope where
  text : String
  query : String
  count : Nat
  taskListId : Option String
  tasks : List STask
deriving Repr, DecidableEq

/-- Structured payload of the single-task operations `task.get` and
`task.create`. -/
structure ItemEnvelope where
  text : String
  task : STask
deriving Repr, DecidableEq

/-- Argument bag of `task.create` (the fields `TaskActions.create` reads). -/
structure CreateArgs where
  title : Option String := none
  taskListId : Option String := none
  notes : Option String := none
  due : Option String := none
  status : Option String := none
  parent : Option String := none
deriving Repr, DecidableEq

namespace TaskActions

/-- The filter predicate of `task.search`: the JavaScript
`task.title?.toLowerCase().includes(q.toLowerCase()) ||
 task.notes?.toLowerCase().includes(q.toLowerCase())`
(an absent title or notes short-circuits to falsy). -/
def matchesQuery (t : Task) (q : String) : Bool :=
  (match t.title with
   | some s => strIncludes (strLower s) (strLower q)
   | none => false) ||
  (match t.notes with
   | some s => strIncludes (strLower s) (strLower q)
   | none => false)

/-- `TaskActions._list` from `src/src/Tasks.ts`. With a truthy scope it issues
one `tasks.list` call and returns `items || []`, or `[]` if that call fails
(the failure is logged, not raised). With no scope it enumerates the task
lists, discards lists whose id is falsy (absent or the empty string: the
source filters with `taskList => taskList.id`), fans out one `tasks.list`
call per surviving list (each failure caught individually, contributing
`[]`), and flattens the per-list results in enumeration order; if the
enumeration itself fails the error is logged and `[]` returned. The second
component is the trace of gateway calls issued. -/
def _list (gw : Gateway) (taskListId : Option String) : List Task × List GCall :=
  if jsTruthy taskListId then
    let tlid := taskListId.getD ""
    match gw.tasksList tlid with
    | Except.ok items => (items.getD [], [GCall.tasksList tlid])
    | Except.error _ => ([], [GCall.tasksList tlid])
  else
    match gw.tasklistsList with
    | Except.error _ => ([], [GCall.tasklistsList])
    | Except.ok itemsOpt =>
      let taskLists := (itemsOpt.getD []).filter (fun tl => jsTruthy tl.id)
      if taskLists.isEmpty then ([], [GCall.tasklistsList])
      else
        let perList := taskLists.map (fun tl =>
          let tlid := tl.id.getD ""
          (itemsOf (gw.tasksList tlid), GCall.tasksList tlid))
        ((perList.map Prod.fst).flatten, GCall.tasklistsList :: perList.map Prod.snd)

/-- `TaskActions.list` from `src/src/Tasks.ts`: delegates to `_list` and shapes
the success envelope. Its catch branch is unreachable because `_list` and the
envelope construction never throw, so the model always returns `Except.ok`. -/
def list (gw : Gateway) (taskListId : Option String) :
    Except McpError ListEnvelope × List GCall :=
  let r := _list gw taskListId
  let allTasks := r.1
  let listInfo :=
    if jsTruthy taskListId then "in list " ++ taskListId.getD ""
    else "across all lists"
  (Except.ok
    { text := "Found " ++ toString allTasks.length ++ " tasks " ++ listInfo
      count := allTasks.length
      taskListId := jsOrNullStr taskListId
      tasks := allTasks.map serializeTask }, r.2)

/-- `TaskActions.get` from `src/src/Tasks.ts`: validates the required `id`,
then issues one `tasks.get` call scoped to `taskListId || "@default"`. Any
upstream failure is caught by the blanket catch and rethrown as
`ErrorCode.internalError` (this action does not route through
`handleApiError`). -/
def get (gw : Gateway) (taskListId : Option String) (id : Option String) :
    Except McpError ItemEnvelope × List GCall :=
  let tlid := jsOrStr taskListId "@default"
  if jsTruthy id then
    let taskId := id.getD ""
    match gw.tasksGet tlid taskId with
    | Except.ok data =>
      (Except.ok { text := "Task: " ++ jsDisplay data.title
                   task := serializeTask data }, [GCall.tasksGet tlid taskId])
    | Except.error e =>
      (Except.error { code := ErrorCode.internalError
                      message := "Failed to get task: " ++ e.message },
       [GCall.tasksGet tlid taskId])
  else
    (Except.error { code := ErrorCode.invalidParams
                    message := "Task ID is required" }, [])

/-- `TaskActions.create` from `src/src/Tasks.ts`: extracts the argument bag
with `|| defaults`, rejects a missing or empty title with invalid-params
before any gateway call, builds the insert body including each optional field
only when truthy, and maps an insert failure through `handleApiError` with
default code `ErrorCode.internalError`. -/
def create (gw : Gateway) (args : CreateArgs) :
    Except McpError ItemEnvelope × List GCall :=
  let title := args.title.getD ""
  if title = "" then
    (Except.error { code := ErrorCode.invalidParams
                    message := "Task title is required" }, [])
  else
    let taskListId := jsOrStr args.taskListId "@default"
    let body : Task :=
      { title := some title
        notes := jsOrNullStr args.notes
        due := jsOrNullStr args.due
        status := jsOrNullStr args.status
        parent := jsOrNullStr args.parent }
    match gw.tasksInsert taskListId body with
    | Except.ok data =>
      (Except.ok { text := "Task created: " ++ jsDisplay data.title
                   task := serializeTask data },
       [GCall.tasksInsert taskListId body])
    | Except.error e =>
      (Except.error (handleApiError e "creating task" ErrorCode.internalError),
       [GCall.tasksInsert taskListId body])

/-- `TaskActions.search` from `src/src/Tasks.ts`: rejects a falsy query with
invalid-params before any gateway call, otherwise aggregates via `_list` and
filters with `matchesQuery`. As with `list`, the catch branch is unreachable,
so a truthy query always yields a success envelope. -/
def search (gw : Gateway) (query : Option String) (taskListId : Option String) :
    Except McpError SearchEnvelope × List GCall :=
  if jsTruthy query then
    let q := query.getD ""
    let r := _list gw taskListId
    let filteredItems := r.1.filter (fun t => matchesQuery t q)
    let listInfo :=
      if jsTruthy taskListId then "in list " ++ taskListId.getD ""
      else "across all lists"
    (Except.ok
      { text := "Found " ++ toString filteredItems.length ++ " tasks matching \"" ++
                q ++ "\" " ++ listInfo
        query := q
        count := filteredItems.length
        taskListId := jsOrNullStr taskListId
        tasks := filteredItems.map serializeTask }, r.2)
  else
    (Except.error { code := ErrorCode.invalidParams
                    message := "Search query is required" }, [])

end TaskActions

/-- Concatenation, in list-enumeration order, of the item sequences of
exactly those task lists whose per-list `tasks.list` call succeeds. This is
the aggregate the specification promises for an omitted-scope `task.list`. -/
def succeedingConcat (gw : Gateway) (ls : List TaskList) : List Task :=
  ((ls.filter (fun tl => exceptOk (gw.tasksList (tl.id.getD "")))).map
    (fun tl => itemsOf (gw.tasksList (tl.id.getD "")))).flatten

/-- Case-insensitive substring containment, as the specification words it for
`task.search`: `q` occurs inside `s` after lowercasing both. -/
def substrCI (q s : String) : Prop := (strLower q).data <:+: (strLower s).data

/-- OAuth credentials as stored by the client and in `.credentials.json`. -/
structure Credentials where
  access_token : Option String := none
  refresh_token : Option String := none
  expiry_date : Option Int := none
  scope : Option String := none
  token_type : Option String := none
deriving Repr, DecidableEq

/-- Payload of one `tokens` refresh notification, as typed in
`setupTokenRefreshHandler`: an optional access token and an optional refresh
token; an absent field leaves the corresponding credential untouched. -/
structure TokenNotification where
  access_token : Option String := none
  refresh_token : Option String := none
deriving Repr, DecidableEq

/-- The JavaScript spread merge of `setupTokenRefreshHandler`:
notified fields win on key collision, absent keys retain the prior value,
and every credential field outside the notification shape is carried over. -/
def mergeCredentials (cur : Credentials) (t : TokenNotification) : Credentials :=
  { cur with
    access_token := match t.access_token with
      | some a => some a
      | none => cur.access_token
    refresh_token := match t.refresh_token with
      | some r => some r
      | none => cur.refresh_token }

/-- Live auth state: the OAuth client's credentials and the contents of the
credential file (`none` when `.credentials.json` does not exist). -/
structure AuthState where
  clientCreds : Credentials
  credFile : Option Credentials
deriving Repr, DecidableEq

/-- The `tokens` listener installed by `setupTokenRefreshHandler`: when the
notification carries a truthy access token, merge it over the current
credentials, apply the merged set to the live client, and overwrite the
credential file with the merged set, but only if that file exists
(`fs.existsSync`); otherwise the notification is ignored. -/
def onTokens (s : AuthState) (t : TokenNotification) : AuthState :=
  if jsTruthy t.access_token then
    let updatedCredentials := mergeCredentials s.clientCreds t
    { clientCreds := updatedCredentials
      credFile := if s.credFile.isSome then some updatedCredentials
                  else s.credFile }
  else s

/-- Which credential source `setupAuth` selected at startup. -/
inductive CredSource where
  | envVars
  | file
deriving Repr, DecidableEq

/-- Environment credentials visible to `setupAuth`. -/
structure Env where
  access_token : Option String := none
  refresh_token : Option String := none
deriving Repr, DecidableEq

/-- The source-selection logic of `setupAuth`: a truthy `REFRESH_TOKEN`
environment variable wins and the credential file is not read; otherwise the
file is used when it exists; otherwise startup fails fatally. -/
def setupAuthSource (env : Env) (file : Option Credentials) :
    Except Unit (CredSource × Credentials) :=
  if jsTruthy env.refresh_token then
    Except.ok (CredSource.envVars,
      { access_token := env.access_token, refresh_token := env.refresh_token })
  else
    match file with
    | some creds => Except.ok (CredSource.file, creds)
    | none => Except.error ()

/-! Concrete upstream fixtures used by the witnesses and counterexamples. -/

/-- A 404 response, as a GaxiosError with status 404. -/
def apiNotFound : ApiError := { status := some 404, message := "Task not found" }

/-- A 500 response: an upstream backend failure. -/
def apiBackendDown : ApiError := { status := some 500, message := "backend unavailable" }

/-- A gateway on which `tasks.get` (and `tasks.insert`) reject with HTTP 404. -/
def gw404 : Gateway :=
  { tasklistsList := Except.ok (some [])
    tasksList := fun _ => Except.ok (some [])
    tasksGet := fun _ _ => Except.error apiNotFound
    tasksInsert := fun _ _ => Except.error apiNotFound }

/-- A gateway whose task-list enumeration itself fails. -/
def gwEnumFail : Gateway :=
  { tasklistsList := Except.error apiBackendDown
    tasksList := fun _ => Except.error apiBackendDown
    tasksGet := fun _ _ => Except.error apiBackendDown
    tasksInsert := fun _ _ => Except.error apiBackendDown }

/-- A gateway that accepts inserts; used to trace `task.create`. -/
def gwInsertOk : Gateway :=
  { tasklistsList := Except.ok (some [])
    tasksList := fun _ => Except.ok (some [])
    tasksGet := fun _ _ => Except.error apiBackendDown
    tasksInsert := fun _ body => Except.ok body }

/-- A task whose title is the empty string. -/
def taskEmptyTitle : Task := { title := some "" }

/-- A task whose title is literally Untitled. -/
def taskUntitledTitle : Task := { title := some "Untitled" }

/-- A task carrying an empty-string note. -/
def taskEmptyNotes : Task := { title := some "x", notes := some "" }

/-- The same task with the note absent. -/
def taskAbsentNotes : Task := { title := some "x" }

/-- A task with a title and notes but no status, used for the round-trip
witness. -/
def taskW8 : Task := { id := some "w8", title := some "Buy milk", notes := some "2 liters" }

end GTasks

namespace GTasks

/-! Helper lemmas about the JavaScript defaulting combinators. -/

theorem jsOrNullStr_idem (v : Option String) :
    jsOrNullStr (jsOrNullStr v) = jsOrNullStr v := by
  cases v with
  | none => rfl
  | some s => by_cases h : s = "" <;> simp [jsOrNullStr, h]

theorem jsOrStr_absorb (v : Option String) (d : String) :
    jsOrStr (some (jsOrStr v d)) d = jsOrStr v d := by
  cases v with
  | none => simp [jsOrStr]
  | some s => by_cases h : s = "" <;> simp [jsOrStr, h]

theorem jsOrBool_absorb (v : Option Bool) :
    jsOrBool (some (jsOrBool v false)) false = jsOrBool v false := by
  cases v with
  | none => rfl
  | some b => cases b <;> rfl

/-- C8: every task placed in a structured payload has its optional fields
normalized to explicit defaults — a missing status becomes needsAction,
missing notes/due/parent/etag become the null sentinel, missing
hidden/deleted become false — and serialization is idempotent on
already-normalized tasks: serializing, re-parsing the payload and
serializing again reproduces the first payload exactly. -/
theorem serializeTask_roundtrip_defaults (t : Task) :
    serializeTask (parseTask (serializeTask t)) = serializeTask t ∧
    (t.status = none → (serializeTask t).status = "needsAction") ∧
    (t.notes = none → (serializeTask t).notes = none) ∧
    (t.due = none → (serializeTask t).due = none) ∧
    (t.parent = none → (serializeTask t).parent = none) ∧
    (t.etag = none → (serializeTask t).etag = none) ∧
    (t.hidden = none → (serializeTask t).hidden = false) ∧
    (t.deleted = none → (serializeTask t).deleted = false) := by
  refine ⟨?_, ?_, ?_, ?_, ?_, ?_, ?_, ?_⟩
  · simp [serializeTask, parseTask, jsOrNullStr_idem, jsOrStr_absorb, jsOrBool_absorb]
  all_goals intro h
  all_goals simp [serializeTask, h, jsOrStr, jsOrNullStr, jsOrBool]

/-- C8 witness: the round-trip and the status default evaluated on a
concrete task without a status. -/
theorem serializeTask_roundtrip_defaults_witness :
    serializeTask (parseTask (serializeTask taskW8)) = serializeTask taskW8 ∧
    (serializeTask taskW8).status = "needsAction" :=
  ⟨(serializeTask_roundtrip_defaults taskW8).1,
   (serializeTask_roundtrip_defaults taskW8).2.1 rfl⟩

/-- C10: serialization collapses a missing or empty title to the literal
Untitled and empty-string notes/due/parent/etag to the null sentinel, so it
is not injective at the public interface: an empty-string title is
indistinguishable from the title Untitled, and an empty-string note from an
absent note. -/
theorem serializeTask_not_injective :
    serializeTask taskEmptyTitle = serializeTask taskUntitledTitle ∧
    taskEmptyTitle ≠ taskUntitledTitle ∧
    serializeTask taskEmptyNotes = serializeTask taskAbsentNotes ∧
    taskEmptyNotes ≠ taskAbsentNotes ∧
    (∀ t : Task, t.title = none ∨ t.title = some "" →
      (serializeTask t).title = "Untitled") ∧
    (∀ t : Task, t.notes = some "" → (serializeTask t).notes = none) ∧
    (∀ t : Task, t.due = some "" → (serializeTask t).due = none) ∧
    (∀ t : Task, t.parent = some "" → (serializeTask t).parent = none) ∧
    (∀ t : Task, t.etag = some "" → (serializeTask t).etag = none) := by
  refine ⟨by decide, by decide, by decide, by decide, ?_, ?_, ?_, ?_, ?_⟩
  · intro t h; rcases h with h | h <;> simp [serializeTask, jsOrStr, h]
  all_goals intro t h
  all_goals simp [serializeTask, jsOrNullStr, h]

/-- C10 witness: the collapses evaluated on the concrete colliding tasks. -/
theorem serializeTask_not_injective_witness :
    (serializeTask taskEmptyTitle).title = "Untitled" ∧
    (serializeTask taskEmptyNotes).notes = none :=
  ⟨serializeTask_not_injective.2.2.2.2.1 taskEmptyTitle (Or.inr rfl),
   serializeTask_not_injective.2.2.2.2.2.1 taskEmptyNotes rfl⟩

/-- C4: a `task.create` whose argument bag lacks a title, or carries the
empty string, fails with invalid-params and issues zero gateway calls;
conversely a nonempty call trace implies the title was present and
non-empty, so the insert endpoint is reached only under that precondition. -/
theorem task_create_requires_title (gw : Gateway) :
    (∀ args : CreateArgs, args.title = none ∨ args.title = some "" →
      TaskActions.create gw args =
        (Except.error { code := ErrorCode.invalidParams
                        message := "Task title is required" }, [])) ∧
    (∀ args : CreateArgs, (TaskActions.create gw args).2 ≠ [] →
      args.title ≠ none ∧ args.title ≠ some "") := by
  constructor
  · intro args h
    rcases h with h | h <;> simp [TaskActions.create, h]
  · intro args h
    by_cases ht : args.title.getD "" = ""
    · exact absurd (by simp [TaskActions.create, ht]) h
    · cases harg : args.title with
      | none => rw [harg] at ht; exact absurd rfl ht
      | some s =>
        rw [harg] at ht
        simp only [Option.getD_some] at ht
        constructor
        · intro hc; exact Option.noConfusion hc
        · intro hc
          have hs : s = "" := by injection hc
          exact ht hs

/-- C4 witness: an absent title is rejected without any call, while a real
title reaches the insert endpoint. -/
theorem task_create_requires_title_witness :
    TaskActions.create gwInsertOk { title := none } =
      (Except.error { code := ErrorCode.invalidParams
                      message := "Task title is required" }, []) ∧
    ((some "New Task" : Option String) ≠ none ∧
     (some "New Task" : Option String) ≠ some "") :=
  ⟨(task_create_requires_title gwInsertOk).1 { title := none } (Or.inl rfl),
   (task_create_requires_title gwInsertOk).2 { title := some "New Task" } (by decide)⟩

/-- C2 counterexample: on a gateway whose `tasks.get` rejects with HTTP 404,
`task.get` with a present id fails with internal-error, not the
invalid-request code the claim requires. -/
theorem task_get_404_counterexample :
    errCodeOf (TaskActions.get gw404 none (some "t1")).1 =
      some ErrorCode.internalError ∧
    ErrorCode.internalError ≠ ErrorCode.invalidRequest := by
  constructor
  · rfl
  · decide

/-- C2 amended: `task.get` guards every upstream failure — 404 included —
with a blanket catch that rethrows internal-error; the 404 to
invalid-request mapping lives in `handleApiError`, which `task.get` does not
call (only operations such as `task.create` route through it). -/
theorem task_get_upstream_failure_internal_error (gw : Gateway)
    (tl id : Option String) (e : ApiError)
    (hid : jsTruthy id = true)
    (h : gw.tasksGet (jsOrStr tl "@default") (id.getD "") = Except.error e) :
    (TaskActions.get gw tl id).1 =
      Except.error { code := ErrorCode.internalError
                     message := "Failed to get task: " ++ e.message } ∧
    (∀ m op : String,
      (handleApiError { status := some 404, message := m } op
        ErrorCode.internalError).code = ErrorCode.invalidRequest) := by
  constructor
  · simp [TaskActions.get, hid, h]
  · intro m op; rfl

/-- C2 witness: the amended behavior evaluated on the 404 gateway. -/
theorem task_get_upstream_failure_internal_error_witness :
    (TaskActions.get gw404 none (some "t1")).1 =
      Except.error { code := ErrorCode.internalError
                     message := "Failed to get task: " ++ apiNotFound.message } ∧
    (handleApiError { status := some 404, message := "gone" } "getting task"
      ErrorCode.internalError).code = ErrorCode.invalidRequest :=
  ⟨(task_get_upstream_failure_internal_error gw404 none (some "t1") apiNotFound
      (by decide) rfl).1,
   (task_get_upstream_failure_internal_error gw404 none (some "t1") apiNotFound
      (by decide) rfl).2 "gone" "getting task"⟩

/-- C3 counterexample: when the task-list enumeration itself fails, the
omitted-scope `task.list` does not surface an internal-error response — it
succeeds with an empty result. -/
theorem task_list_enum_failure_counterexample :
    errCodeOf (TaskActions.list gwEnumFail none).1 = none ∧
    (TaskActions.list gwEnumFail none).1 =
      Except.ok
        { text := "Found " ++ toString (0 : Nat) ++ " tasks " ++ "across all lists"
          count := 0
          taskListId := none
          tasks := [] } := by
  constructor
  · rfl
  · rfl

/-- C3 amended: a failure of the initial task-list enumeration is caught
inside the aggregation helper, which logs it and returns the empty list, so
the omitted-scope `task.list` surfaces as a success envelope reporting zero
tasks after exactly the one enumeration call. -/
theorem task_list_enum_failure_swallowed (gw : Gateway) (e : ApiError)
    (h : gw.tasklistsList = Except.error e) :
    TaskActions.list gw none =
      (Except.ok
        { text := "Found " ++ toString (0 : Nat) ++ " tasks " ++ "across all lists"
          count := 0
          taskListId := none
          tasks := [] }, [GCall.tasklistsList]) := by
  simp [TaskActions.list, TaskActions._list, jsTruthy, h, jsOrNullStr]

/-- C3 witness: the amended behavior evaluated on the failing gateway. -/
theorem task_list_enum_failure_swallowed_witness :
    TaskActions.list gwEnumFail none =
      (Except.ok
        { text := "Found " ++ toString (0 : Nat) ++ " tasks " ++ "across all lists"
          count := 0
          taskListId := none
          tasks := [] }, [GCall.tasklistsList]) :=
  task_list_enum_failure_swallowed gwEnumFail apiBackendDown rfl

/-- C9: for a truthy task-list scope, `task.list` issues exactly one
`tasks.list` call; on success the envelope count is exactly the number of
items the gateway reports for that list, and on failure the action returns
an empty sequence as a success (the failure is logged, not raised). -/
theorem task_list_scoped_count (gw : Gateway) (tlid : String) (hne : tlid ≠ "") :
    (∀ items, gw.tasksList tlid = Except.ok items →
      TaskActions.list gw (some tlid) =
        (Except.ok
          { text := "Found " ++ toString (items.getD []).length ++ " tasks " ++
              ("in list " ++ tlid)
            count := (items.getD []).length
            taskListId := some tlid
            tasks := (items.getD []).map serializeTask }, [GCall.tasksList tlid])) ∧
    (∀ e, gw.tasksList tlid = Except.error e →
      TaskActions.list gw (some tlid) =
        (Except.ok
          { text := "Found " ++ toString (0 : Nat) ++ " tasks " ++
              ("in list " ++ tlid)
            count := 0
            taskListId := some tlid
            tasks := [] }, [GCall.tasksList tlid])) := by
  have htr : jsTruthy (some tlid) = true := by simp [jsTruthy, hne]
  constructor
  · intro items h
    simp [TaskActions.list, TaskActions._list, htr, h, jsOrNullStr, hne]
  · intro e h
    simp [TaskActions.list, TaskActions._list, htr, h, jsOrNullStr, hne]

end GTasks

namespace GTasks

/-- First scenario task of the scoped-list witness. -/
def tC9a : Task := { id := some "task1", title := some "Task 1", status := some "needsAction" }

/-- Second scenario task of the scoped-list witness. -/
def tC9b : Task := { id := some "task2", title := some "Task 2", status := some "completed" }

/-- A gateway where only the list `list1` answers `tasks.list`. -/
def gwC9 : Gateway :=
  { tasklistsList := Except.ok (some [])
    tasksList := fun tl =>
      if tl = "list1" then Except.ok (some [tC9a, tC9b])
      else Except.error apiBackendDown
    tasksGet := fun _ _ => Except.error apiBackendDown
    tasksInsert := fun _ _ => Except.error apiBackendDown }

/-- C9 witness: the scoped count and the failure-to-empty behavior evaluated
on a concrete gateway. -/
theorem task_list_scoped_count_witness :
    TaskActions.list gwC9 (some "list1") =
      (Except.ok
        { text := "Found " ++ toString (2 : Nat) ++ " tasks " ++
            ("in list " ++ "list1")
          count := 2
          taskListId := some "list1"
          tasks := [serializeTask tC9a, serializeTask tC9b] },
       [GCall.tasksList "list1"]) ∧
    TaskActions.list gwC9 (some "nope") =
      (Except.ok
        { text := "Found " ++ toString (0 : Nat) ++ " tasks " ++
            ("in list " ++ "nope")
          count := 0
          taskListId := some "nope"
          tasks := [] }, [GCall.tasksList "nope"]) :=
  ⟨(task_list_scoped_count gwC9 "list1" (by decide)).1 (some [tC9a, tC9b]) (by decide),
   (task_list_scoped_count gwC9 "nope" (by decide)).2 apiBackendDown (by decide)⟩

/-- C6: a token-refresh notification carrying an access token and no refresh
token merges as spread semantics dictate — the new access token wins, the
prior refresh token and every field not named in the notification are
unchanged — and the merged set is applied to the live client and written to
the credential file whenever that file exists (the persist step is a no-op
exactly when no credential file is present). -/
theorem token_refresh_preserves_refresh_token (s : AuthState)
    (t : TokenNotification) (r a : String)
    (hr : s.clientCreds.refresh_token = some r)
    (ha : t.access_token = some a) (hane : a ≠ "")
    (hnr : t.refresh_token = none) :
    (onTokens s t).clientCreds = { s.clientCreds with access_token := some a } ∧
    (onTokens s t).clientCreds.refresh_token = some r ∧
    (∀ c, s.credFile = some c →
      (onTokens s t).credFile = some { s.clientCreds with access_token := some a }) ∧
    (s.credFile = none → (onTokens s t).credFile = none) := by
  have htr : jsTruthy t.access_token = true := by simp [jsTruthy, ha, hane]
  have hm : mergeCredentials s.clientCreds t =
      { s.clientCreds with access_token := some a } := by
    simp [mergeCredentials, ha, hnr]
  refine ⟨?_, ?_, ?_, ?_⟩
  · simp [onTokens, htr, hm]
  · simp [onTokens, htr, hm, hr]
  · intro c hc; simp [onTokens, htr, hm, hc]
  · intro hc; simp [onTokens, htr, hc]

end GTasks

namespace GTasks

/-- Credentials held before the refresh event of the C6 witness. -/
def credsC6 : Credentials :=
  { access_token := some "old-access"
    refresh_token := some "keep-refresh"
    expiry_date := some 1111 }

/-- The C6 notification: a new access token only. -/
def notifC6 : TokenNotification := { access_token := some "new-access" }

/-- Auth state of the C6 witness: file-based credentials in use. -/
def stateC6 : AuthState := { clientCreds := credsC6, credFile := some credsC6 }

/-- C6 witness: the merge evaluated on concrete credentials. -/
theorem token_refresh_preserves_refresh_token_witness :
    (onTokens stateC6 notifC6).clientCreds =
      { credsC6 with access_token := some "new-access" } ∧
    (onTokens stateC6 notifC6).clientCreds.refresh_token = some "keep-refresh" ∧
    (onTokens stateC6 notifC6).credFile =
      some { credsC6 with access_token := some "new-access" } :=
  ⟨(token_refresh_preserves_refresh_token stateC6 notifC6 "keep-refresh"
      "new-access" rfl rfl (by decide) rfl).1,
   (token_refresh_preserves_refresh_token stateC6 notifC6 "keep-refresh"
      "new-access" rfl rfl (by decide) rfl).2.1,
   (token_refresh_preserves_refresh_token stateC6 notifC6 "keep-refresh"
      "new-access" rfl rfl (by decide) rfl).2.2.1 credsC6 rfl⟩

/-- Environment of the C7 counterexample: a refresh token is set in the
environment, so startup uses the environment source. -/
def envCredsBoth : Env :=
  { access_token := some "env-access", refresh_token := some "env-refresh" }

/-- Contents of the credential file that also exists in the C7 scenario. -/
def fileCredsC7 : Credentials :=
  { access_token := some "file-access", refresh_token := some "file-refresh" }

/-- The credentials `setupAuth` installs from the environment. -/
def startCredsC7 : Credentials :=
  { access_token := some "env-access", refresh_token := some "env-refresh" }

/-- The C7 refresh notification. -/
def notifC7 : TokenNotification := { access_token := some "fresh-access" }

/-- C7 counterexample: startup selects the environment-variable source, yet
because the credential file happens to exist, the refresh handler still
overwrites it — the write is not conditioned on which source was used. -/
theorem persist_despite_env_source_counterexample :
    setupAuthSource envCredsBoth (some fileCredsC7) =
      Except.ok (CredSource.envVars, startCredsC7) ∧
    (onTokens { clientCreds := startCredsC7, credFile := some fileCredsC7 }
        notifC7).credFile = some (mergeCredentials startCredsC7 notifC7) ∧
    some (mergeCredentials startCredsC7 notifC7) ≠ some fileCredsC7 := by
  refine ⟨by decide, by decide, by decide⟩

/-- C7 amended: the credential file is written on a token refresh if and
only if the file exists at that moment (`fs.existsSync`), independently of
which credential source startup selected; operating with no credential file
present, persist performs no write. -/
theorem persist_iff_file_exists (s : AuthState) (t : TokenNotification)
    (ha : jsTruthy t.access_token = true) :
    (s.credFile = none → (onTokens s t).credFile = none) ∧
    (∀ c, s.credFile = some c →
      (onTokens s t).credFile = some (mergeCredentials s.clientCreds t)) := by
  constructor
  · intro h; simp [onTokens, ha, h]
  · intro c h; simp [onTokens, ha, h]

/-- C7 witness: the two persist behaviors evaluated on concrete states. -/
theorem persist_iff_file_exists_witness :
    (onTokens { clientCreds := startCredsC7, credFile := none } notifC7).credFile =
      none ∧
    (onTokens { clientCreds := startCredsC7, credFile := some fileCredsC7 }
        notifC7).credFile = some (mergeCredentials startCredsC7 notifC7) :=
  ⟨(persist_iff_file_exists { clientCreds := startCredsC7, credFile := none }
      notifC7 (by decide)).1 rfl,
   (persist_iff_file_exists { clientCreds := startCredsC7, credFile := some fileCredsC7 }
      notifC7 (by decide)).2 fileCredsC7 rfl⟩

/-- C5: with a non-empty query, `task.search` succeeds with exactly the
members of the aggregated set accepted by the search predicate, and that
predicate holds precisely when the title or the notes contain the query as a
case-insensitive substring; a missing or empty query is rejected with
invalid-params before any gateway call. -/
theorem task_search_filters (gw : Gateway) (scope : Option String) :
    (∀ q : String, q ≠ "" →
      TaskActions.search gw (some q) scope =
        (Except.ok
          { text := "Found " ++
              toString ((TaskActions._list gw scope).1.filter
                (fun t => TaskActions.matchesQuery t q)).length ++
              " tasks matching \"" ++ q ++ "\" " ++
              (if jsTruthy scope then "in list " ++ scope.getD ""
               else "across all lists")
            query := q
            count := ((TaskActions._list gw scope).1.filter
              (fun t => TaskActions.matchesQuery t q)).length
            taskListId := jsOrNullStr scope
            tasks := ((TaskActions._list gw scope).1.filter
              (fun t => TaskActions.matchesQuery t q)).map serializeTask },
         (TaskActions._list gw scope).2)) ∧
    (∀ t : Task, ∀ q : String,
      TaskActions.matchesQuery t q = true ↔
        ((∃ s, t.title = some s ∧ substrCI q s) ∨
         (∃ s, t.notes = some s ∧ substrCI q s))) ∧
    (∀ q : Option String, q = none ∨ q = some "" →
      TaskActions.search gw q scope =
        (Except.error { code := ErrorCode.invalidParams
                        message := "Search query is required" }, [])) := by
  refine ⟨?_, ?_, ?_⟩
  · intro q hq
    simp [TaskActions.search, jsTruthy, hq]
  · intro t q
    cases ht : t.title <;> cases hn : t.notes <;>
      simp [TaskActions.matchesQuery, strIncludes, substrCI, ht, hn]
  · intro q h
    rcases h with h | h <;> simp [TaskActions.search, jsTruthy, h]

end GTasks

namespace GTasks

/-- A task whose title contains the search witness query (case differs). -/
def tC5a : Task := { id := some "s1", title := some "Buy MILK", status := some "needsAction" }

/-- A task matching neither by title nor by notes. -/
def tC5b : Task := { id := some "s2", title := some "Walk dog", notes := some "in the park" }

/-- The single task list of the search witness gateway. -/
def tlC5 : TaskList := { id := some "listS", title := some "Errands" }

/-- Gateway of the search witness. -/
def gwC5 : Gateway :=
  { tasklistsList := Except.ok (some [tlC5])
    tasksList := fun _ => Except.ok (some [tC5a, tC5b])
    tasksGet := fun _ _ => Except.error apiBackendDown
    tasksInsert := fun _ _ => Except.error apiBackendDown }

/-- C5 witness: the case-insensitive filter and the empty-query rejection
evaluated on a concrete gateway. -/
theorem task_search_filters_witness :
    TaskActions.search gwC5 (some "milk") none =
      (Except.ok
        { text := "Found " ++ toString (1 : Nat) ++ " tasks matching \"" ++
            "milk" ++ "\" " ++ "across all lists"
          query := "milk"
          count := 1
          taskListId := none
          tasks := [serializeTask tC5a] },
       [GCall.tasklistsList, GCall.tasksList "listS"]) ∧
    TaskActions.search gwC5 none none =
      (Except.error { code := ErrorCode.invalidParams
                      message := "Search query is required" }, []) :=
  ⟨(task_search_filters gwC5 none).1 "milk" (by decide),
   (task_search_filters gwC5 none).2.2 none (Or.inl rfl)⟩

/-- Dropping the contributions of elements rejected by `p` does not change a
flattened map when rejected elements contribute nothing. -/
theorem flatten_map_filter {α β : Type} (p : α → Bool) (f : α → List β)
    (h0 : ∀ x, p x = false → f x = []) :
    ∀ l : List α, (l.map f).flatten = ((l.filter p).map f).flatten := by
  intro l
  induction l with
  | nil => rfl
  | cons a l ih =>
    cases hp : p a with
    | true => simp [List.filter_cons, hp, ih]
    | false => simp [List.filter_cons, hp, h0 a hp, ih]

/-- C1: an omitted-scope `task.list` over an enumeration of task lists that
all carry truthy ids (present and non-empty, so none is dropped by the
source's `taskList => taskList.id` filter) returns a success envelope whose
tasks are exactly the concatenation, in list-enumeration order, of the item
sequences of the per-list calls that succeed — however many of the per-list
calls fail — and its trace is the enumeration call followed by one
`tasks.list` call per list. -/
theorem task_list_fanout_aggregate (gw : Gateway) (ls : List TaskList)
    (h : gw.tasklistsList = Except.ok (some ls))
    (hids : ∀ tl ∈ ls, jsTruthy tl.id = true) :
    TaskActions.list gw none =
      (Except.ok
        { text := "Found " ++ toString (succeedingConcat gw ls).length ++
            " tasks " ++ "across all lists"
          count := (succeedingConcat gw ls).length
          taskListId := none
          tasks := (succeedingConcat gw ls).map serializeTask },
       GCall.tasklistsList ::
         ls.map (fun tl => GCall.tasksList (tl.id.getD ""))) := by
  have hfilter : ls.filter (fun tl => jsTruthy tl.id) = ls :=
    List.filter_eq_self.mpr hids
  have h0 : ∀ x : TaskList, exceptOk (gw.tasksList (x.id.getD "")) = false →
      itemsOf (gw.tasksList (x.id.getD "")) = [] := by
    intro x hx
    cases hgw : gw.tasksList (x.id.getD "") with
    | ok v => rw [hgw] at hx; simp [exceptOk] at hx
    | error e => simp [itemsOf, hgw]
  have hflat : (ls.map (fun tl => itemsOf (gw.tasksList (tl.id.getD "")))).flatten =
      succeedingConcat gw ls :=
    flatten_map_filter _ _ h0 ls
  have hjn : jsTruthy (none : Option String) = false := rfl
  have hlist : TaskActions._list gw none =
      (succeedingConcat gw ls,
       GCall.tasklistsList :: ls.map (fun tl => GCall.tasksList (tl.id.getD ""))) := by
    by_cases hemp : ls = []
    · subst hemp
      simp [TaskActions._list, jsTruthy, h, succeedingConcat]
    · have hemp2 : ls.isEmpty = false := by
        cases ls with
        | nil => exact absurd rfl hemp
        | cons a l => rfl
      simp only [TaskActions._list, hjn, Bool.false_eq_true, if_false, h,
        Option.getD_some, hfilter, hemp2]
      rw [List.map_map, List.map_map]
      simp only [Prod.mk.injEq]
      constructor
      · exact hflat
      · rfl
  unfold TaskActions.list
  rw [hlist]
  rfl

end GTasks

namespace GTasks

/-- First enumerated task list of the fan-out witness (the succeeding one). -/
def tlC1a : TaskList := { id := some "list1", title := some "Task List 1" }

/-- Second enumerated task list of the fan-out witness (the failing one). -/
def tlC1b : TaskList := { id := some "list2", title := some "Task List 2" }

/-- The needsAction task of the fan-out witness scenario. -/
def tC1a : Task := { id := some "t1", title := some "Task 1", status := some "needsAction" }

/-- The completed task of the fan-out witness scenario. -/
def tC1b : Task := { id := some "t2", title := some "Task 2", status := some "completed" }

/-- Gateway of the fan-out witness: two lists, the first with two tasks, the
second failing its `tasks.list` call. -/
def gwC1 : Gateway :=
  { tasklistsList := Except.ok (some [tlC1a, tlC1b])
    tasksList := fun tl =>
      if tl = "list1" then Except.ok (some [tC1a, tC1b])
      else Except.error apiBackendDown
    tasksGet := fun _ _ => Except.error apiBackendDown
    tasksInsert := fun _ _ => Except.error apiBackendDown }

/-- C1 witness: the specification scenario — two lists, one failing —
returns exactly the two tasks of the succeeding list, reports 2 tasks found,
and raises no error. -/
theorem task_list_fanout_aggregate_witness :
    TaskActions.list gwC1 none =
      (Except.ok
        { text := "Found " ++ toString (2 : Nat) ++ " tasks " ++ "across all lists"
          count := 2
          taskListId := none
          tasks := [serializeTask tC1a, serializeTask tC1b] },
       [GCall.tasklistsList, GCall.tasksList "list1", GCall.tasksList "list2"]) :=
  task_list_fanout_aggregate gwC1 [tlC1a, tlC1b] (by decide) (by decide)

end GTasks

